import Mathlib

/-
Formal model of the bsc plugin core: the wallet chain registry
(providers/wallet.ts), the bridge orchestrator (actions/bridge.ts), the
staking dispatcher (actions/stake.ts) and the transfer action
(actions/transfer.ts).  Machine integers (TS bigint) are modelled as Nat,
with Int where a subtraction can go below zero.  Fallible code returns
Except or Option.  Network effects are modelled by passing in the values
the chain would answer (balances, allowances, decimals) and returning the
list of RPC calls the code issues.
-/

/-- Numeric value of a list of decimal digit characters, most significant first. -/
def digitsToNat (cs : List Char) : Nat :=
  cs.foldl (fun a c => a * 10 + (c.toNat - 48)) 0

/-- True when every character is a decimal digit. -/
def allDigits (cs : List Char) : Bool :=
  cs.all Char.isDigit

/-- Drops trailing zero characters. -/
def stripTrailingZeros (cs : List Char) : List Char :=
  (cs.reverse.dropWhile (fun c => c = '0')).reverse

/-- Splits a character list at the dot characters, like String.split with
a dot predicate. -/
def splitDot (cs : List Char) : List (List Char) :=
  match cs with
  | [] => [[]]
  | c :: rest =>
      let r := splitDot rest
      if c = '.' then [] :: r
      else
        match r with
        | [] => [[c]]
        | h :: t => (c :: h) :: t

/-- Model of the viem parseUnits library function on nonnegative decimal
strings: an integer part, optionally a dot and a fractional part whose
significant length must fit in the given number of decimals (the rounding
path of viem for longer fractions is out of scope and returns none, as do
malformed strings, which make viem throw). -/
def parseUnits (s : String) (decimals : Nat) : Option Nat :=
  match splitDot s.toList with
  | [i] =>
      if i.length > 0 && allDigits i then
        some (digitsToNat i * 10 ^ decimals)
      else none
  | [i, f] =>
      if allDigits i && allDigits f then
        let fr := stripTrailingZeros f
        if fr.length ≤ decimals then
          some (digitsToNat i * 10 ^ decimals
              + digitsToNat fr * 10 ^ (decimals - fr.length))
        else none
      else none
  | _ => none

/-- Model of viem parseEther: parseUnits with 18 decimals. -/
def parseEther (s : String) : Option Nat :=
  parseUnits s 18

/-- A viem Chain descriptor restricted to the fields the plugin reads:
identity, native currency symbol, the default RPC URL and the optional
custom RPC URL entry (rpcUrls.custom). -/
structure ChainDesc where
  chainId : Nat
  chainLabel : String
  nativeSymbol : String
  defaultRpcUrl : String
  customRpcUrl : Option String
  deriving Repr, DecidableEq

/-- The viem bsc mainnet chain descriptor. -/
def bscChain : ChainDesc :=
  { chainId := 56, chainLabel := "BNB Smart Chain", nativeSymbol := "BNB",
    defaultRpcUrl := "https://rpc.ankr.com/bsc", customRpcUrl := none }

/-- The viem bsc testnet chain descriptor. -/
def bscTestnetChain : ChainDesc :=
  { chainId := 97, chainLabel := "Binance Smart Chain Testnet", nativeSymbol := "tBNB",
    defaultRpcUrl := "https://data-seed-prebsc-1-s1.bnbchain.org:8545", customRpcUrl := none }

/-- The viem opBNB mainnet chain descriptor. -/
def opBNBChain : ChainDesc :=
  { chainId := 204, chainLabel := "opBNB", nativeSymbol := "BNB",
    defaultRpcUrl := "https://opbnb-mainnet-rpc.bnbchain.org", customRpcUrl := none }

/-- The viem opBNB testnet chain descriptor. -/
def opBNBTestnetChain : ChainDesc :=
  { chainId := 5611, chainLabel := "opBNB Testnet", nativeSymbol := "tBNB",
    defaultRpcUrl := "https://opbnb-testnet-rpc.bnbchain.org", customRpcUrl := none }

/-- The static viem chain catalog (viem/chains), restricted to the four
chain names the plugin declares as SupportedChain; every other name is
absent, which makes genChainFromName throw, exactly as a name absent from
viem/chains does. -/
def viemChains (name : String) : Option ChainDesc :=
  if name = "bsc" then some bscChain
  else if name = "bscTestnet" then some bscTestnetChain
  else if name = "opBNB" then some opBNBChain
  else if name = "opBNBTestnet" then some opBNBTestnetChain
  else none

/-- WalletProvider.genChainFromName: looks the name up in the static viem
catalog, failing when absent; a nonempty custom RPC URL is recorded as the
rpcUrls.custom entry of the returned descriptor (an empty string is falsy
in JS and leaves the descriptor unchanged). -/
def genChainFromName (chainName : String) (customRpcUrl : Option String) :
    Except String ChainDesc :=
  match viemChains chainName with
  | none => .error "Invalid chain name"
  | some base =>
      match customRpcUrl with
      | none => .ok base
      | some url =>
          if url = "" then .ok base
          else .ok { base with customRpcUrl := some url }

/-- The chains table of the provider: a JS record, modelled as an
insertion-ordered association list with distinct-key overwrite. -/
abbrev ChainMap := List (String × ChainDesc)

/-- Record lookup chains[k]. -/
def mapLookup (m : ChainMap) (k : String) : Option ChainDesc :=
  match m with
  | [] => none
  | (k2, v) :: rest => if k2 = k then some v else mapLookup rest k

/-- Record assignment chains[k] = v: overwrites in place or appends. -/
def mapInsert (m : ChainMap) (k : String) (v : ChainDesc) : ChainMap :=
  match m with
  | [] => [(k, v)]
  | (k2, v2) :: rest =>
      if k2 = k then (k2, v) :: rest else (k2, v2) :: mapInsert rest k v

/-- The mutable state of WalletProvider: the current chain pointer and the
chains record (the account is immutable after construction and plays no
role in the claims). -/
structure WalletProvider where
  currentChain : String
  chains : ChainMap
  deriving Repr, DecidableEq

/-- WalletProvider.setChains: merges the given record into the chains
table, key by key in order; absent input is a no-op. -/
def setChains (st : WalletProvider) (cs : Option ChainMap) : WalletProvider :=
  match cs with
  | none => st
  | some l => { st with chains := l.foldl (fun m p => mapInsert m p.1 p.2) st.chains }

/-- The field initializers of WalletProvider: currentChain starts as bsc
and the chains record starts holding the viem bsc descriptor. -/
def initialProvider : WalletProvider :=
  { currentChain := "bsc", chains := [("bsc", bscChain)] }

/-- The WalletProvider constructor: initializes the fields, merges the
passed chains, and when the passed record is nonempty selects its first
key as the current chain. -/
def mkWalletProvider (cs : Option ChainMap) : WalletProvider :=
  let st := setChains initialProvider cs
  match cs with
  | some ((k, _) :: _) => { st with currentChain := k }
  | some [] => st
  | none => st

/-- WalletProvider.addChain: delegates to setChains. -/
def addChain (st : WalletProvider) (cs : ChainMap) : WalletProvider :=
  setChains st (some cs)

/-- WalletProvider.switchChain: when the name is not yet in the chains
table, builds a descriptor from the viem catalog (letting the failure of
genChainFromName propagate) and registers it; then selects the name as
the current chain.  A custom RPC URL is only consulted on the
registration path, never when the name is already present. -/
def switchChain (st : WalletProvider) (chainName : String)
    (customRpcUrl : Option String) : Except String WalletProvider :=
  match mapLookup st.chains chainName with
  | some _ => .ok { st with currentChain := chainName }
  | none =>
      match genChainFromName chainName customRpcUrl with
      | .error e => .error e
      | .ok c =>
          .ok { currentChain := chainName, chains := mapInsert st.chains chainName c }

/-- WalletProvider.createHttpTransport: reads the descriptor of the given
chain from the chains table (undefined access throws in JS) and returns
the URL the transport is bound to: the custom entry when present,
otherwise the default one. -/
def createHttpTransport (st : WalletProvider) (chainName : String) :
    Except String String :=
  match mapLookup st.chains chainName with
  | none => .error "TypeError: chain is undefined"
  | some c =>
      match c.customRpcUrl with
      | some url => .ok url
      | none => .ok c.defaultRpcUrl

/-- WalletProvider.getCurrentChain: the chains record at the current chain
pointer (undefined when the pointer names no registered chain). -/
def getCurrentChain (st : WalletProvider) : Option ChainDesc :=
  mapLookup st.chains st.currentChain

/-- The two public mutating registry operations after construction. -/
inductive RegOp where
  | addChainOp (cs : ChainMap)
  | switchChainOp (chainName : String) (customRpcUrl : Option String)
  deriving Repr

/-- Applies a registry operation; a switchChain that throws leaves the
state unchanged, since the exception propagates before any assignment. -/
def applyRegOp (st : WalletProvider) (op : RegOp) : WalletProvider :=
  match op with
  | .addChainOp cs => addChain st cs
  | .switchChainOp n url =>
      match switchChain st n url with
      | .ok st2 => st2
      | .error _ => st

deriving instance DecidableEq for Except

/-- JS falsiness of an optional string field: absent or the empty string. -/
def strFalsy (s : Option String) : Bool :=
  match s with
  | none => true
  | some v => v = ""

/-- The BridgeParams request record of the plugin. -/
structure BridgeParams where
  fromChain : String
  toChain : String
  fromToken : Option String
  toToken : Option String
  amount : String
  toAddress : Option String
  deriving Repr, DecidableEq

/-- BridgeAction.bridge: selfBridge is toAddress absent (or falsy) or equal
to the sender address. -/
def isSelfBridge (p : BridgeParams) (sender : String) : Bool :=
  strFalsy p.toAddress || decide (p.toAddress = some sender)

/-- BridgeAction.bridge: nativeTokenBridge is fromToken absent (or falsy). -/
def isNativeTokenBridge (p : BridgeParams) : Bool :=
  strFalsy p.fromToken

/-- The six bridge contract methods the orchestrator can call. -/
inductive BridgeMethod where
  | depositETH
  | depositERC20
  | depositETHTo
  | depositERC20To
  | withdraw
  | withdrawTo
  deriving Repr, DecidableEq

/-- An RPC call the bridge flow issues, in program text order; the value
field mirrors the explicit value option of the viem call when present. -/
inductive NetCall where
  | allowanceRead (token owner spender : String)
  | allowanceSimulate (token spender : String) (delta : Nat)
  | allowanceWrite (token spender : String) (delta : Nat)
  | bridgeSimulate (contractAddr : String) (method : BridgeMethod) (callValue : Option Nat)
  | bridgeWrite (contractAddr : String) (method : BridgeMethod) (callValue : Option Nat)
  deriving Repr, DecidableEq

/-- BridgeAction constants: the L1 bridge contract address. -/
def L1_BRIDGE_ADDRESS : String := "0xF05F0e4362859c3331Cb9395CBC201E3Fa6757Ea"

/-- BridgeAction constants: the L2 bridge contract address. -/
def L2_BRIDGE_ADDRESS : String := "0x4000698e3De52120DE28181BaACda82B21568416"

/-- BridgeAction constants: the sentinel token address for native BNB on L2. -/
def LEGACY_ERC20_ETH : String := "0xDeadDeAddeAddEAddeadDEaDDEAdDeaDDeAD0000"

/-- BridgeAction constants: the fixed L2 delegation fee in wei. -/
def L2_DELEGATION_FEE : Nat := 600000000000000

/-- BridgeAction.checkTokenAllowance: reads the current allowance from the
chain (its answer is the chainAllowance argument); when it is below the
requested amount, simulates and submits one increaseAllowance call whose
argument is the difference.  The returned list is every RPC call the
operation issues. -/
def checkTokenAllowance (chainAllowance : Nat) (token owner spender : String)
    (amount : Nat) : List NetCall :=
  .allowanceRead token owner spender ::
    (if chainAllowance < amount then
      [.allowanceSimulate token spender (amount - chainAllowance),
       .allowanceWrite token spender (amount - chainAllowance)]
    else [])

/-- Arguments of the allowance-increase submissions inside a call list. -/
def allowanceWriteDeltas (calls : List NetCall) : List Nat :=
  calls.filterMap (fun c =>
    match c with
    | .allowanceWrite _ _ d => some d
    | _ => none)

/-- The transaction the bridge flow constructs: target contract, method,
the amount argument encoded in the call data when the shape has one, the
native value attached to the submitted write (zero when the write passes
no value option), and the value field of the returned Transaction record
(which the source mutates after the ERC-20 deposit writes). -/
structure BridgeTx where
  contractAddr : String
  method : BridgeMethod
  argAmount : Option Nat
  txValue : Nat
  returnValue : Nat
  deriving Repr, DecidableEq

/-- The full effect of one BridgeAction.bridge call: the registry state it
leaves behind, the RPC calls it issues, and its outcome. -/
structure BridgeRun where
  registry : WalletProvider
  calls : List NetCall
  outcome : Except String BridgeTx
  deriving Repr, DecidableEq

/-- BridgeAction.bridge.  Follows the source statement by statement:
switch the registry to fromChain (a thrown error propagates), parse the
amount with parseEther, read the chain config (throws off catalog),
compute the two booleans, then branch on direction; the ERC-20 paths run
checkTokenAllowance against the direction bridge contract, and each of the
eight shapes simulates then writes its method.  The calls list records the
RPC calls in program text order; the allowance sub-calls are issued by an
un-awaited task (see the interleaving model below for the ordering this
actually guarantees). -/
def bridgeTx (st : WalletProvider) (p : BridgeParams) (sender : String)
    (chainAllowance : Nat) : BridgeRun :=
  match switchChain st p.fromChain none with
  | .error e => { registry := st, calls := [], outcome := .error e }
  | .ok st1 =>
    match parseEther p.amount with
    | none => { registry := st1, calls := [], outcome := .error "parse error" }
    | some v =>
      match viemChains p.fromChain with
      | none => { registry := st1, calls := [], outcome := .error "Invalid chain name" }
      | some _ =>
        let selfBridge := isSelfBridge p sender
        let nativeTokenBridge := isNativeTokenBridge p
        if p.fromChain = "bsc" ∧ p.toChain = "opBNB" then
          let allowCalls :=
            if nativeTokenBridge then []
            else checkTokenAllowance chainAllowance (p.fromToken.getD "") sender
                   L1_BRIDGE_ADDRESS v
          if selfBridge && nativeTokenBridge then
            { registry := st1,
              calls := allowCalls ++
                [.bridgeSimulate L1_BRIDGE_ADDRESS .depositETH none,
                 .bridgeWrite L1_BRIDGE_ADDRESS .depositETH (some v)],
              outcome := .ok ({ contractAddr := L1_BRIDGE_ADDRESS, method := .depositETH, argAmount := none, txValue := v, returnValue := v }) }
          else if selfBridge && !nativeTokenBridge then
            { registry := st1,
              calls := allowCalls ++
                [.bridgeSimulate L1_BRIDGE_ADDRESS .depositERC20 none,
                 .bridgeWrite L1_BRIDGE_ADDRESS .depositERC20 none],
              outcome := .ok ({ contractAddr := L1_BRIDGE_ADDRESS, method := .depositERC20, argAmount := some v, txValue := 0, returnValue := 0 }) }
          else if !selfBridge && nativeTokenBridge then
            { registry := st1,
              calls := allowCalls ++
                [.bridgeSimulate L1_BRIDGE_ADDRESS .depositETHTo none,
                 .bridgeWrite L1_BRIDGE_ADDRESS .depositETHTo (some v)],
              outcome := .ok ({ contractAddr := L1_BRIDGE_ADDRESS, method := .depositETHTo, argAmount := none, txValue := v, returnValue := v }) }
          else
            { registry := st1,
              calls := allowCalls ++
                [.bridgeSimulate L1_BRIDGE_ADDRESS .depositERC20To none,
                 .bridgeWrite L1_BRIDGE_ADDRESS .depositERC20To none],
              outcome := .ok ({ contractAddr := L1_BRIDGE_ADDRESS, method := .depositERC20To, argAmount := some v, txValue := 0, returnValue := 0 }) }
        else if p.fromChain = "opBNB" ∧ p.toChain = "bsc" then
          let allowCalls :=
            if nativeTokenBridge then []
            else checkTokenAllowance chainAllowance (p.fromToken.getD "") sender
                   L2_BRIDGE_ADDRESS v
          if selfBridge && nativeTokenBridge then
            { registry := st1,
              calls := allowCalls ++
                [.bridgeSimulate L2_BRIDGE_ADDRESS .withdraw (some (v + L2_DELEGATION_FEE)),
                 .bridgeWrite L2_BRIDGE_ADDRESS .withdraw (some (v + L2_DELEGATION_FEE))],
              outcome := .ok ({ contractAddr := L2_BRIDGE_ADDRESS, method := .withdraw, argAmount := some v, txValue := v + L2_DELEGATION_FEE, returnValue := v + L2_DELEGATION_FEE }) }
          else if selfBridge && !nativeTokenBridge then
            { registry := st1,
              calls := allowCalls ++
                [.bridgeSimulate L2_BRIDGE_ADDRESS .withdraw (some (v + L2_DELEGATION_FEE)),
                 .bridgeWrite L2_BRIDGE_ADDRESS .withdraw (some (v + L2_DELEGATION_FEE))],
              outcome := .ok ({ contractAddr := L2_BRIDGE_ADDRESS, method := .withdraw, argAmount := some v, txValue := v + L2_DELEGATION_FEE, returnValue := v + L2_DELEGATION_FEE }) }
          else if !selfBridge && nativeTokenBridge then
            { registry := st1,
              calls := allowCalls ++
                [.bridgeSimulate L2_BRIDGE_ADDRESS .withdrawTo (some (v + L2_DELEGATION_FEE)),
                 .bridgeWrite L2_BRIDGE_ADDRESS .withdrawTo (some (v + L2_DELEGATION_FEE))],
              outcome := .ok ({ contractAddr := L2_BRIDGE_ADDRESS, method := .withdrawTo, argAmount := some v, txValue := v + L2_DELEGATION_FEE, returnValue := v + L2_DELEGATION_FEE }) }
          else
            { registry := st1,
              calls := allowCalls ++
                [.bridgeSimulate L2_BRIDGE_ADDRESS .withdrawTo (some L2_DELEGATION_FEE),
                 .bridgeWrite L2_BRIDGE_ADDRESS .withdrawTo (some L2_DELEGATION_FEE)],
              outcome := .ok ({ contractAddr := L2_BRIDGE_ADDRESS, method := .withdrawTo, argAmount := some v, txValue := L2_DELEGATION_FEE, returnValue := L2_DELEGATION_FEE }) }
        else
          { registry := st1, calls := [], outcome := .error "Unsupported bridge direction" }

/-- The target, method and native value of one row of the bridge shape
selection, for comparison with the table of the spec. -/
structure SpecShape where
  contractAddr : String
  method : BridgeMethod
  valueSent : Nat
  deriving Repr, DecidableEq

/-- Modelled from the spec: the eight-row table of section 4.2, mapping
direction, selfBridge and nativeToken to target contract, method and
native value; deposits send the amount for native and zero for ERC-20,
withdrawals send amount plus the fixed delegation fee except the
non-self ERC-20 row, which sends the fee only. -/
def specBridgeShape (l1ToL2 selfBridge nativeToken : Bool) (amount : Nat) : SpecShape :=
  if l1ToL2 then
    { contractAddr := L1_BRIDGE_ADDRESS,
      method :=
        if selfBridge && nativeToken then .depositETH
        else if selfBridge && !nativeToken then .depositERC20
        else if !selfBridge && nativeToken then .depositETHTo
        else .depositERC20To,
      valueSent := if nativeToken then amount else 0 }
  else
    { contractAddr := L2_BRIDGE_ADDRESS,
      method := if selfBridge then .withdraw else .withdrawTo,
      valueSent :=
        if !selfBridge && !nativeToken then L2_DELEGATION_FEE
        else amount + L2_DELEGATION_FEE }

/-- Event alphabet for the scheduling model of one ERC-20 bridge flow:
the allowance read, the allowance-increase simulate and write, and the
bridge contract simulate and write. -/
inductive BridgeEv where
  | allowRead
  | allowSim
  | allowWrite
  | bridgeSim
  | bridgeWrite
  deriving Repr, DecidableEq

/-- Decides whether zs is an order-preserving interleaving of xs and ys. -/
def isInterleaving (xs ys zs : List BridgeEv) : Bool :=
  match xs, ys, zs with
  | [], [], [] => true
  | _, _, [] => false
  | _, _, z :: zt =>
      (match xs with
       | x :: xt => decide (x = z) && isInterleaving xt ys zt
       | [] => false) ||
      (match ys with
       | y :: yt => decide (y = z) && isInterleaving xs yt zt
       | [] => false)

/-- The event orders one ERC-20 bridge call with an insufficient allowance
can produce.  The source invokes checkTokenAllowance without await, so the
JS event loop runs that async function synchronously up to its first await
(issuing the allowance read) and then returns control to bridge, which
proceeds to the bridge simulate and write; the two remaining allowance
events resolve in later microtasks, so their order relative to the bridge
RPC calls depends only on network timing and any interleaving of the two
suffixes is possible. -/
def possibleBridgeErc20Trace (t : List BridgeEv) : Bool :=
  match t with
  | .allowRead :: rest =>
      isInterleaving [.allowSim, .allowWrite] [.bridgeSim, .bridgeWrite] rest
  | _ => false

/-- True when event a occurs strictly before the first occurrence of b. -/
def occursBefore (a b : BridgeEv) (t : List BridgeEv) : Bool :=
  match t with
  | [] => false
  | x :: xt =>
      if x = a then xt.any (fun e => decide (e = b))
      else if x = b then false
      else occursBefore a b xt

/-- The four staking actions. -/
inductive StakeActionKind where
  | delegate
  | undelegate
  | redelegate
  | claim
  deriving Repr, DecidableEq

/-- The StakeParams request record of the plugin. -/
structure StakeParams where
  action : StakeActionKind
  amount : Option String
  fromValidator : Option String
  toValidator : Option String
  delegateVotePower : Bool
  deriving Repr, DecidableEq

/-- StakeAction.validateStakeParams: requires toValidator for delegate and
redelegate, then fromValidator for undelegate, redelegate and claim; the
amount field is never checked. -/
def validateStakeParams (p : StakeParams) : Except String Unit :=
  if (p.action = .delegate ∨ p.action = .redelegate) ∧ strFalsy p.toValidator = true then
    .error "toValidator is required"
  else if (p.action = .undelegate ∨ p.action = .redelegate ∨ p.action = .claim)
      ∧ strFalsy p.fromValidator = true then
    .error "fromValidator is required"
  else .ok ()

/-- A StakeHub contract call: method name, the argument lists the four
dispatch helpers encode, and the native value attached. -/
structure StakeCall where
  contractAddr : String
  methodName : String
  argFromValidator : Option String
  argToValidator : Option String
  argAmount : Option Nat
  argSyncVote : Option Bool
  txValue : Nat
  deriving Repr, DecidableEq

/-- An RPC call of the stake flow: each dispatch helper simulates then
writes the same contract call. -/
inductive StakeNetCall where
  | simulateCall (c : StakeCall)
  | writeCall (c : StakeCall)
  deriving Repr, DecidableEq

/-- The full effect of one StakeAction.stake call. -/
structure StakeRun where
  registry : WalletProvider
  calls : List StakeNetCall
  outcome : Except String StakeCall
  deriving Repr, DecidableEq

/-- StakeAction constants: the StakeHub system contract address. -/
def StakeHub : String := "0x0000000000000000000000000000000000002002"

/-- parseEther applied to an optional amount: an absent amount makes the
viem parser throw (parseEther of undefined). -/
def parseEtherOpt (s : Option String) : Option Nat :=
  match s with
  | none => none
  | some v => parseEther v

/-- StakeAction.stake: validates (errors propagate unwrapped, before the
try block), switches the registry to bsc, then dispatches on the action.
The delegate, undelegate and redelegate paths parse the amount with
parseEther, whose failure is caught by the try block and rethrown wrapped;
claim ignores the amount entirely and encodes the zero claim-all sentinel.
Each dispatch helper simulates then writes one StakeHub call. -/
def stakeTx (st : WalletProvider) (p : StakeParams) : StakeRun :=
  match validateStakeParams p with
  | .error e => { registry := st, calls := [], outcome := .error e }
  | .ok _ =>
      match switchChain st "bsc" none with
      | .error e => { registry := st, calls := [], outcome := .error e }
      | .ok st1 =>
          match p.action with
          | .delegate =>
              match parseEtherOpt p.amount with
              | none =>
                  { registry := st1, calls := [],
                    outcome := .error "Stake failed: parse error" }
              | some v =>
                  let c : StakeCall :=
                    { contractAddr := StakeHub, methodName := "delegate",
                      argFromValidator := none, argToValidator := p.toValidator,
                      argAmount := none, argSyncVote := some p.delegateVotePower,
                      txValue := v }
                  { registry := st1, calls := [.simulateCall c, .writeCall c],
                    outcome := .ok c }
          | .undelegate =>
              match parseEtherOpt p.amount with
              | none =>
                  { registry := st1, calls := [],
                    outcome := .error "Stake failed: parse error" }
              | some v =>
                  let c : StakeCall :=
                    { contractAddr := StakeHub, methodName := "undelegate",
                      argFromValidator := p.fromValidator, argToValidator := none,
                      argAmount := some v, argSyncVote := none, txValue := 0 }
                  { registry := st1, calls := [.simulateCall c, .writeCall c],
                    outcome := .ok c }
          | .redelegate =>
              match parseEtherOpt p.amount with
              | none =>
                  { registry := st1, calls := [],
                    outcome := .error "Stake failed: parse error" }
              | some v =>
                  let c : StakeCall :=
                    { contractAddr := StakeHub, methodName := "redelegate",
                      argFromValidator := p.fromValidator,
                      argToValidator := p.toValidator,
                      argAmount := some v, argSyncVote := some true, txValue := 0 }
                  { registry := st1, calls := [.simulateCall c, .writeCall c],
                    outcome := .ok c }
          | .claim =>
              let c : StakeCall :=
                { contractAddr := StakeHub, methodName := "claim",
                  argFromValidator := p.fromValidator, argToValidator := none,
                  argAmount := some 0, argSyncVote := none, txValue := 0 }
              { registry := st1, calls := [.simulateCall c, .writeCall c],
                outcome := .ok c }

/-- TransferAction constants: the fixed gas price of 3 Gwei. -/
def BSC_DEFAULT_GAS_PRICE : Nat := 3000000000

/-- The TransferParams request record of the plugin. -/
structure TransferParams where
  chain : String
  token : Option String
  amount : Option String
  toAddress : String
  data : Option String
  deriving Repr, DecidableEq

/-- The answers the chain gives to the read calls of the transfer flow:
the native balance of the sender, the decimals and balanceOf answers of
the ERC-20 token, and the symbol resolution of the external token list. -/
structure TransferEnv where
  nativeBalance : Nat
  tokenDecimals : Nat
  tokenBalance : Nat
  resolveSymbol : String → Option String

/-- The transaction the transfer flow submits: either a native value
transfer (value is an Int because the all-balance sweep subtracts the gas
budget from the balance with bigint arithmetic) with optionally pinned
gas fields, or an ERC-20 transfer call. -/
inductive TransferTx where
  | nativeTx (toAddr : String) (value : Int) (gas : Option Nat)
      (gasPrice : Option Nat) (callData : String)
  | erc20Tx (token : String) (toAddr : String) (value : Nat)
  deriving Repr, DecidableEq

/-- Tests for the hex-address prefix, like String.startsWith with a 0x
argument. -/
def startsWith0x (s : String) : Bool :=
  match s.toList with
  | c1 :: c2 :: _ => c1 = '0' && c2 = 'x'
  | _ => false

/-- TransferAction.transfer takes the native branch when the token field
is falsy or equals the native currency symbol of the chain. -/
def nativeTokenSelected (token : Option String) (nativeSym : String) : Bool :=
  strFalsy token || decide (token = some nativeSym)

/-- The full effect of one TransferAction.transfer call. -/
structure TransferRun where
  registry : WalletProvider
  result : Except String TransferTx
  deriving DecidableEq

/-- TransferAction.transfer.  Follows the source: default the data field,
switch the registry to the target chain, read the native symbol from the
chains table, then either send a native transaction (an absent amount
sweeps the queried balance minus the fixed 3 Gwei times 21000 gas budget
and pins gas and gasPrice; a present amount is parsed with parseEther) or
resolve the token, read its decimals, and send an ERC-20 transfer (an
absent amount sends the queried token balance exactly; a present amount is
parsed with parseUnits at the queried decimals). -/
def transferTx (st : WalletProvider) (p : TransferParams) (env : TransferEnv) :
    TransferRun :=
  let dataStr := match p.data with | none => "0x" | some d => d
  match switchChain st p.chain none with
  | .error e => { registry := st, result := .error e }
  | .ok st1 =>
      match mapLookup st1.chains p.chain with
      | none => { registry := st1, result := .error "TypeError: chain is undefined" }
      | some cd =>
          if nativeTokenSelected p.token cd.nativeSymbol then
            match p.amount with
            | none =>
                let value : Int :=
                  (env.nativeBalance : Int) - (BSC_DEFAULT_GAS_PRICE : Int) * 21000
                match viemChains p.chain with
                | none =>
                    { registry := st1,
                      result := .error "Transfer failed: Invalid chain name" }
                | some _ =>
                    { registry := st1,
                      result := .ok (.nativeTx p.toAddress value (some 21000)
                        (some BSC_DEFAULT_GAS_PRICE) dataStr) }
            | some amt =>
                match parseEther amt with
                | none =>
                    { registry := st1, result := .error "Transfer failed: parse error" }
                | some v =>
                    match viemChains p.chain with
                    | none =>
                        { registry := st1,
                          result := .error "Transfer failed: Invalid chain name" }
                    | some _ =>
                        { registry := st1,
                          result := .ok (.nativeTx p.toAddress (v : Int) none none dataStr) }
          else
            let tok := p.token.getD ""
            let tokenAddressOpt :=
              if startsWith0x tok then some tok else env.resolveSymbol tok
            match tokenAddressOpt with
            | none =>
                { registry := st1,
                  result := .error "Transfer failed: unknown token symbol" }
            | some tokenAddress =>
                match p.amount with
                | none =>
                    { registry := st1,
                      result := .ok (.erc20Tx tokenAddress p.toAddress env.tokenBalance) }
                | some amt =>
                    match parseUnits amt env.tokenDecimals with
                    | none =>
                        { registry := st1,
                          result := .error "Transfer failed: parse error" }
                    | some v =>
                        { registry := st1,
                          result := .ok (.erc20Tx tokenAddress p.toAddress v) }

theorem mapLookup_mapInsert (m : ChainMap) (k k2 : String) (v : ChainDesc) :
    mapLookup (mapInsert m k v) k2 = if k = k2 then some v else mapLookup m k2 := by
  induction m with
  | nil =>
      simp only [mapInsert, mapLookup]
  | cons p rest ih =>
      obtain ⟨k3, v3⟩ := p
      by_cases h3 : k3 = k
      · subst h3
        by_cases h2 : k3 = k2
        · subst h2
          simp [mapInsert, mapLookup]
        · simp [mapInsert, mapLookup, h2]
      · by_cases h2 : k3 = k2
        · subst h2
          simp only [mapInsert, if_neg h3, mapLookup, if_pos rfl]
          have : ¬ k = k3 := fun h => h3 h.symm
          simp [this]
        · simp [mapInsert, mapLookup, h3, h2, ih]

theorem mapLookup_foldl_insert_isSome (l : ChainMap) (m : ChainMap) (k : String)
    (h : (mapLookup m k).isSome = true) :
    (mapLookup (l.foldl (fun acc p => mapInsert acc p.1 p.2) m) k).isSome = true := by
  induction l generalizing m with
  | nil => simpa using h
  | cons p rest ih =>
      simp only [List.foldl_cons]
      refine ih (mapInsert m p.1 p.2) ?_
      rw [mapLookup_mapInsert]
      by_cases hp : p.1 = k
      · simp [hp]
      · simpa [hp] using h

theorem registry_inv_mk (cs : Option ChainMap) :
    (mapLookup (mkWalletProvider cs).chains (mkWalletProvider cs).currentChain).isSome
      = true := by
  match cs with
  | none => simp [mkWalletProvider, setChains, initialProvider, mapLookup]
  | some [] => simp [mkWalletProvider, setChains, initialProvider, mapLookup]
  | some ((k, v) :: t) =>
      simp only [mkWalletProvider, setChains, initialProvider, List.foldl_cons]
      refine mapLookup_foldl_insert_isSome t _ k ?_
      rw [mapLookup_mapInsert]
      simp

theorem registry_inv_step (st : WalletProvider) (op : RegOp)
    (h : (mapLookup st.chains st.currentChain).isSome = true) :
    (mapLookup (applyRegOp st op).chains (applyRegOp st op).currentChain).isSome
      = true := by
  match op with
  | .addChainOp cs =>
      simpa [applyRegOp, addChain, setChains] using
        mapLookup_foldl_insert_isSome cs st.chains st.currentChain h
  | .switchChainOp n url =>
      simp only [applyRegOp, switchChain]
      cases hl : mapLookup st.chains n with
      | some c => simp [hl]
      | none =>
          cases hg : genChainFromName n url with
          | error e => simpa using h
          | ok c => simp [mapLookup_mapInsert]

/-- C10: after construction and after every sequence of addChain and
switchChain operations, the current chain pointer names a registered
chain, so getCurrentChain returns a defined descriptor. -/
theorem registry_currentChain_always_registered (cs : Option ChainMap)
    (ops : List RegOp) :
    (getCurrentChain (ops.foldl applyRegOp (mkWalletProvider cs))).isSome = true := by
  suffices h : ∀ (l : List RegOp) (st : WalletProvider),
      (mapLookup st.chains st.currentChain).isSome = true →
      (mapLookup (l.foldl applyRegOp st).chains
        (l.foldl applyRegOp st).currentChain).isSome = true by
    exact h ops (mkWalletProvider cs) (registry_inv_mk cs)
  intro l
  induction l with
  | nil => intro st h; simpa using h
  | cons op rest ih =>
      intro st h
      simpa using ih (applyRegOp st op) (registry_inv_step st op h)

theorem switchChain_ok_of_catalog (st : WalletProvider) (n : String)
    (url : Option String) (h : (viemChains n).isSome = true) :
    ∃ st2, switchChain st n url = .ok st2 ∧ st2.currentChain = n ∧
      (mapLookup st2.chains n).isSome = true := by
  unfold switchChain
  cases hl : mapLookup st.chains n with
  | some c => exact ⟨_, rfl, rfl, by simp [hl]⟩
  | none =>
      unfold genChainFromName
      cases hv : viemChains n with
      | none => rw [hv] at h; simp at h
      | some base =>
          cases url with
          | none => exact ⟨_, rfl, rfl, by simp [mapLookup_mapInsert]⟩
          | some u =>
              by_cases hu : u = ""
              · simp only [if_pos hu]
                exact ⟨_, rfl, rfl, by simp [mapLookup_mapInsert]⟩
              · simp only [if_neg hu]
                exact ⟨_, rfl, rfl, by simp [mapLookup_mapInsert]⟩

/-- C1: for every BridgeParams whose chain pair is one of the two
supported directions, the bridge flow constructs exactly the call of the
section 4.2 table for the computed (direction, selfBridge,
nativeTokenBridge) combination: target contract, method, and the native
value attached to the submitted transaction, including the fee-only value
of the L2 to L1 non-self ERC-20 row. -/
theorem bridge_matches_spec_table (st : WalletProvider) (p : BridgeParams)
    (sender : String) (chainAllowance v : Nat)
    (hv : parseEther p.amount = some v)
    (hdir : (p.fromChain = "bsc" ∧ p.toChain = "opBNB") ∨
            (p.fromChain = "opBNB" ∧ p.toChain = "bsc")) :
    ∃ tx : BridgeTx,
      (bridgeTx st p sender chainAllowance).outcome = .ok tx ∧
      SpecShape.mk tx.contractAddr tx.method tx.txValue =
        specBridgeShape (decide (p.fromChain = "bsc")) (isSelfBridge p sender)
          (isNativeTokenBridge p) v := by
  rcases hdir with ⟨h1, h2⟩ | ⟨h1, h2⟩
  · obtain ⟨st1, hs, -, -⟩ :=
      switchChain_ok_of_catalog st p.fromChain none (by rw [h1]; rfl)
    unfold bridgeTx
    rw [hs, hv, h1, h2]
    cases hsb : isSelfBridge p sender <;> cases hnb : isNativeTokenBridge p <;>
      simp [viemChains, specBridgeShape, hsb, hnb, h1]
  · obtain ⟨st1, hs, -, -⟩ :=
      switchChain_ok_of_catalog st p.fromChain none (by rw [h1]; rfl)
    unfold bridgeTx
    rw [hs, hv, h1, h2]
    cases hsb : isSelfBridge p sender <;> cases hnb : isNativeTokenBridge p <;>
      simp [viemChains, specBridgeShape, hsb, hnb, h1]

theorem bridge_matches_spec_table_witness :
    ∃ tx : BridgeTx,
      (bridgeTx initialProvider
        { fromChain := "opBNB", toChain := "bsc", fromToken := some "0xTOK",
          toToken := some "0xTOK2", amount := "1", toAddress := some "0xOTHER" }
        "0xME" 0).outcome = .ok tx ∧
      SpecShape.mk tx.contractAddr tx.method tx.txValue =
        specBridgeShape
          (decide ((("opBNB" : String) = "bsc")))
          (isSelfBridge
            { fromChain := "opBNB", toChain := "bsc", fromToken := some "0xTOK",
              toToken := some "0xTOK2", amount := "1", toAddress := some "0xOTHER" }
            "0xME")
          (isNativeTokenBridge
            { fromChain := "opBNB", toChain := "bsc", fromToken := some "0xTOK",
              toToken := some "0xTOK2", amount := "1", toAddress := some "0xOTHER" })
          1000000000000000000 :=
  bridge_matches_spec_table initialProvider
    { fromChain := "opBNB", toChain := "bsc", fromToken := some "0xTOK",
      toToken := some "0xTOK2", amount := "1", toAddress := some "0xOTHER" }
    "0xME" 0 1000000000000000000 (by decide) (Or.inr ⟨rfl, rfl⟩)

/-- C2: the allowance-ensuring operation submits no increase when the
current allowance already covers the requested amount, and otherwise
submits exactly one increaseAllowance call whose argument is exactly the
difference between the requested amount and the current allowance. -/
theorem checkTokenAllowance_exact_delta (a m : Nat) (token owner spender : String) :
    (m ≤ a → allowanceWriteDeltas (checkTokenAllowance a token owner spender m) = []) ∧
    (a < m → allowanceWriteDeltas (checkTokenAllowance a token owner spender m) = [m - a]) := by
  constructor
  · intro h
    have hlt : ¬ a < m := not_lt.mpr h
    simp [checkTokenAllowance, allowanceWriteDeltas, hlt]
  · intro h
    simp [checkTokenAllowance, allowanceWriteDeltas, h]

theorem checkTokenAllowance_exact_delta_witness :
    allowanceWriteDeltas (checkTokenAllowance 5 "0xT" "0xO" "0xS" 3) = [] ∧
    allowanceWriteDeltas (checkTokenAllowance 1 "0xT" "0xO" "0xS" 4) = [3] :=
  ⟨(checkTokenAllowance_exact_delta 5 3 "0xT" "0xO" "0xS").1 (by decide),
   (checkTokenAllowance_exact_delta 1 4 "0xT" "0xO" "0xS").2 (by decide)⟩

/-- C3: the claim is violated by the code.  The source invokes
checkTokenAllowance without await, so the event order in which the bridge
simulate and write are issued before the allowance increase completes is a
possible behavior of an ERC-20 bridge flow with an insufficient allowance,
and in that order the allowance write does not precede the bridge
simulate; hence the allowance step and the bridge call can be in flight at
the same time, contradicting the awaited-to-inclusion ordering the claim
states. -/
theorem bridge_allowance_race_possible :
    possibleBridgeErc20Trace
      [.allowRead, .bridgeSim, .bridgeWrite, .allowSim, .allowWrite] = true ∧
    occursBefore .allowWrite .bridgeSim
      [.allowRead, .bridgeSim, .bridgeWrite, .allowSim, .allowWrite] = false ∧
    ¬ (∀ t : List BridgeEv, possibleBridgeErc20Trace t = true →
         occursBefore .allowWrite .bridgeSim t = true) := by
  refine ⟨by decide, by decide, fun h => ?_⟩
  have hc := h [.allowRead, .bridgeSim, .bridgeWrite, .allowSim, .allowWrite] (by decide)
  exact absurd hc (by decide)

/-- C4: the claim is violated by the code.  The bridge flow converts its
amount with parseEther, that is with 18 decimals, for ERC-20 bridges as
well: the model bridgeTx takes no token decimals input at all because the
source never reads decimals, and on an ERC-20 bridge of amount 1 of a
6-decimal token it encodes 10 to the 18 base units where a conversion by
the token decimals would give 10 to the 6. -/
theorem bridge_amount_ignores_token_decimals :
    ((bridgeTx initialProvider
        { fromChain := "bsc", toChain := "opBNB", fromToken := some "0xTOKEN6",
          toToken := some "0xTOKEN6L2", amount := "1", toAddress := none }
        "0xME" (10 ^ 18)).outcome.map BridgeTx.argAmount) = .ok (some (10 ^ 18)) ∧
    parseUnits "1" 6 = some (10 ^ 6) ∧
    (10 ^ 18 : Nat) ≠ (10 ^ 6 : Nat) := by
  refine ⟨by decide, by decide, by decide⟩

/-- C5 counterexample: a same-chain bridge request fails with the
unsupported-direction error and makes zero network calls, but the registry
state is not left unchanged: the bridge flow switches the current chain to
fromChain (registering it when absent) before the direction check. -/
theorem bridge_unsupported_direction_mutates_registry :
    (bridgeTx initialProvider
      { fromChain := "opBNB", toChain := "opBNB", fromToken := none,
        toToken := none, amount := "1", toAddress := none }
      "0xME" 0).outcome = .error "Unsupported bridge direction" ∧
    (bridgeTx initialProvider
      { fromChain := "opBNB", toChain := "opBNB", fromToken := none,
        toToken := none, amount := "1", toAddress := none }
      "0xME" 0).calls = [] ∧
    (bridgeTx initialProvider
      { fromChain := "opBNB", toChain := "opBNB", fromToken := none,
        toToken := none, amount := "1", toAddress := none }
      "0xME" 0).registry ≠ initialProvider := by
  refine ⟨by decide, by decide, by decide⟩

/-- C5 (amended): for every BridgeParams whose chain pair is not one of
the two supported directions, the bridge flow fails with the
unsupported-direction error and issues zero network calls, leaving
on-chain state untouched; but the registry is not left unchanged in
general, because the current chain pointer is switched to fromChain
(registering it when absent) before the direction check. -/
theorem bridge_unsupported_direction_no_network (st : WalletProvider)
    (p : BridgeParams) (sender : String) (chainAllowance v : Nat)
    (hv : parseEther p.amount = some v)
    (hcat : (viemChains p.fromChain).isSome = true)
    (hd1 : ¬ (p.fromChain = "bsc" ∧ p.toChain = "opBNB"))
    (hd2 : ¬ (p.fromChain = "opBNB" ∧ p.toChain = "bsc")) :
    ∃ st1, switchChain st p.fromChain none = .ok st1 ∧
      bridgeTx st p sender chainAllowance =
        { registry := st1, calls := [],
          outcome := .error "Unsupported bridge direction" } := by
  obtain ⟨st1, hs, -, -⟩ := switchChain_ok_of_catalog st p.fromChain none hcat
  refine ⟨st1, hs, ?_⟩
  obtain ⟨c, hc⟩ := Option.isSome_iff_exists.mp hcat
  unfold bridgeTx
  rw [hs, hv, hc]
  simp only [if_neg hd1, if_neg hd2]

theorem bridge_unsupported_direction_no_network_witness :
    ∃ st1, switchChain initialProvider "bscTestnet" none = .ok st1 ∧
      bridgeTx initialProvider
        { fromChain := "bscTestnet", toChain := "bsc", fromToken := none,
          toToken := none, amount := "2", toAddress := none }
        "0xME" 7 =
        { registry := st1, calls := [],
          outcome := .error "Unsupported bridge direction" } :=
  bridge_unsupported_direction_no_network initialProvider
    { fromChain := "bscTestnet", toChain := "bsc", fromToken := none,
      toToken := none, amount := "2", toAddress := none }
    "0xME" 7 2000000000000000000 (by decide) (by decide) (by decide) (by decide)

/-- C6 counterexample: a delegate request with a toValidator but no amount
passes validation untouched and then fails with a wrapped parse error that
names no field, so a missing amount is not reported as a missing-field
error. -/
theorem stake_missing_amount_not_field_error :
    validateStakeParams
      { action := .delegate, amount := none, fromValidator := none,
        toValidator := some "0xVAL", delegateVotePower := true } = .ok () ∧
    (stakeTx initialProvider
      { action := .delegate, amount := none, fromValidator := none,
        toValidator := some "0xVAL", delegateVotePower := true }).outcome =
      .error "Stake failed: parse error" := by
  refine ⟨by decide, by decide⟩

/-- C6 (amended): a StakeParams missing toValidator for delegate or
redelegate, or missing fromValidator for undelegate, redelegate or claim,
fails before any network call with an error naming that field (toValidator
checked first); a missing amount for delegate, undelegate or redelegate is
not validated and instead fails, also before any network call, with a
wrapped parse error that names no field. -/
theorem stake_missing_field_validation (st : WalletProvider) (p : StakeParams)
    (h : ((p.action = .delegate ∨ p.action = .redelegate)
            ∧ strFalsy p.toValidator = true)
       ∨ ((p.action = .undelegate ∨ p.action = .redelegate ∨ p.action = .claim)
            ∧ strFalsy p.fromValidator = true)
       ∨ ((p.action = .delegate ∨ p.action = .undelegate ∨ p.action = .redelegate)
            ∧ p.amount = none)) :
    (stakeTx st p).calls = [] ∧
    ∃ e, (stakeTx st p).outcome = .error e ∧
      e = (if (p.action = .delegate ∨ p.action = .redelegate)
              ∧ strFalsy p.toValidator = true
           then "toValidator is required"
           else if (p.action = .undelegate ∨ p.action = .redelegate ∨ p.action = .claim)
              ∧ strFalsy p.fromValidator = true
           then "fromValidator is required"
           else "Stake failed: parse error") := by
  by_cases h1 : (p.action = .delegate ∨ p.action = .redelegate)
      ∧ strFalsy p.toValidator = true
  · have hval : validateStakeParams p = .error "toValidator is required" := by
      unfold validateStakeParams
      rw [if_pos h1]
    have hrun : stakeTx st p =
        { registry := st, calls := [],
          outcome := .error "toValidator is required" } := by
      unfold stakeTx
      rw [hval]
    refine ⟨by rw [hrun], "toValidator is required", by rw [hrun], ?_⟩
    rw [if_pos h1]
  · by_cases h2 : (p.action = .undelegate ∨ p.action = .redelegate ∨ p.action = .claim)
        ∧ strFalsy p.fromValidator = true
    · have hval : validateStakeParams p = .error "fromValidator is required" := by
        unfold validateStakeParams
        rw [if_neg h1, if_pos h2]
      have hrun : stakeTx st p =
          { registry := st, calls := [],
            outcome := .error "fromValidator is required" } := by
        unfold stakeTx
        rw [hval]
      refine ⟨by rw [hrun], "fromValidator is required", by rw [hrun], ?_⟩
      rw [if_neg h1, if_pos h2]
    · have h3 : (p.action = .delegate ∨ p.action = .undelegate ∨ p.action = .redelegate)
          ∧ p.amount = none := by tauto
      have hval : validateStakeParams p = .ok () := by
        unfold validateStakeParams
        rw [if_neg h1, if_neg h2]
      obtain ⟨st1, hs, -, -⟩ := switchChain_ok_of_catalog st "bsc" none (by decide)
      obtain ⟨ha, hnone⟩ := h3
      have hrun : stakeTx st p =
          { registry := st1, calls := [],
            outcome := .error "Stake failed: parse error" } := by
        unfold stakeTx
        rw [hval, hs]
        rcases ha with ha | ha | ha <;> rw [ha, hnone] <;> simp [parseEtherOpt]
      refine ⟨by rw [hrun], "Stake failed: parse error", by rw [hrun], ?_⟩
      rw [if_neg h1, if_neg h2]

theorem stake_missing_field_validation_witness :
    (stakeTx initialProvider
      { action := .claim, amount := none, fromValidator := none,
        toValidator := none, delegateVotePower := true }).calls = [] ∧
    ∃ e, (stakeTx initialProvider
      { action := .claim, amount := none, fromValidator := none,
        toValidator := none, delegateVotePower := true }).outcome = .error e ∧
      e = "fromValidator is required" := by
  have h := stake_missing_field_validation initialProvider
    { action := .claim, amount := none, fromValidator := none,
      toValidator := none, delegateVotePower := true }
    (Or.inr (Or.inl (by decide)))
  obtain ⟨hc, e, he, hee⟩ := h
  refine ⟨hc, e, he, ?_⟩
  rw [hee]
  decide

/-- C7: for every claim-action StakeParams with a present fromValidator,
the dispatched StakeHub call encodes the claim method with arguments
(fromValidator, 0), the zero claim-all sentinel, regardless of any
caller-supplied amount, and carries no native value. -/
theorem stake_claim_zero_sentinel (st : WalletProvider) (p : StakeParams)
    (hact : p.action = .claim) (hfrom : strFalsy p.fromValidator = false) :
    (stakeTx st p).outcome =
      .ok { contractAddr := StakeHub, methodName := "claim",
            argFromValidator := p.fromValidator, argToValidator := none,
            argAmount := some 0, argSyncVote := none, txValue := 0 } := by
  have h1 : ¬ ((p.action = .delegate ∨ p.action = .redelegate)
      ∧ strFalsy p.toValidator = true) := by
    rw [hact]
    simp
  have h2 : ¬ ((p.action = .undelegate ∨ p.action = .redelegate ∨ p.action = .claim)
      ∧ strFalsy p.fromValidator = true) := by
    rw [hact, hfrom]
    simp
  have hval : validateStakeParams p = .ok () := by
    unfold validateStakeParams
    rw [if_neg h1, if_neg h2]
  obtain ⟨st1, hs, -, -⟩ := switchChain_ok_of_catalog st "bsc" none (by decide)
  unfold stakeTx
  rw [hval, hs, hact]

theorem stake_claim_zero_sentinel_witness :
    (stakeTx initialProvider
      { action := .claim, amount := some "5", fromValidator := some "0xVAL",
        toValidator := none, delegateVotePower := true }).outcome =
      .ok { contractAddr := StakeHub, methodName := "claim",
            argFromValidator := some "0xVAL", argToValidator := none,
            argAmount := some 0, argSyncVote := none, txValue := 0 } :=
  stake_claim_zero_sentinel initialProvider
    { action := .claim, amount := some "5", fromValidator := some "0xVAL",
      toValidator := none, delegateVotePower := true }
    rfl (by decide)

/-- C8: for a native transfer with no amount, the transferred value is
exactly the queried balance minus the fixed 3 Gwei price times the 21000
gas budget, with gas and gasPrice pinned to those constants; for an ERC-20
transfer with no amount, the transferred value is exactly the queried
token balance, with no gas subtraction. -/
theorem transfer_all_sizing (st : WalletProvider) (p : TransferParams)
    (env : TransferEnv) (hnone : p.amount = none)
    (hcat : (viemChains p.chain).isSome = true) :
    ∃ st1 cd, switchChain st p.chain none = .ok st1 ∧
      mapLookup st1.chains p.chain = some cd ∧
      (nativeTokenSelected p.token cd.nativeSymbol = true →
        (transferTx st p env).result =
          .ok (.nativeTx p.toAddress
            ((env.nativeBalance : Int) - (BSC_DEFAULT_GAS_PRICE : Int) * 21000)
            (some 21000) (some BSC_DEFAULT_GAS_PRICE)
            (match p.data with | none => "0x" | some d => d))) ∧
      (nativeTokenSelected p.token cd.nativeSymbol = false →
        ∀ tokenAddress,
          (if startsWith0x (p.token.getD "") then some (p.token.getD "")
           else env.resolveSymbol (p.token.getD "")) = some tokenAddress →
          (transferTx st p env).result =
            .ok (.erc20Tx tokenAddress p.toAddress env.tokenBalance)) := by
  obtain ⟨st1, hs, -, hos⟩ := switchChain_ok_of_catalog st p.chain none hcat
  obtain ⟨cd, hcd⟩ := Option.isSome_iff_exists.mp hos
  obtain ⟨c0, hc0⟩ := Option.isSome_iff_exists.mp hcat
  refine ⟨st1, cd, hs, hcd, ?_, ?_⟩
  · intro hnat
    unfold transferTx
    simp [hs, hcd, hnone, hnat, hc0]
  · intro hnat tokenAddress htok
    unfold transferTx
    simp [hs, hcd, hnone, hnat, htok]

theorem transfer_all_sizing_witness :
    (transferTx initialProvider
      { chain := "bsc", token := none, amount := none,
        toAddress := "0xTO", data := none }
      { nativeBalance := 1000000000000000000, tokenDecimals := 18,
        tokenBalance := 0, resolveSymbol := fun _ => none }).result =
      .ok (.nativeTx "0xTO"
        ((1000000000000000000 : Int) - (BSC_DEFAULT_GAS_PRICE : Int) * 21000)
        (some 21000) (some BSC_DEFAULT_GAS_PRICE) "0x") ∧
    (transferTx initialProvider
      { chain := "bsc", token := some "0xTOK", amount := none,
        toAddress := "0xTO", data := none }
      { nativeBalance := 0, tokenDecimals := 6,
        tokenBalance := 12345, resolveSymbol := fun _ => none }).result =
      .ok (.erc20Tx "0xTOK" "0xTO" 12345) := by
  constructor
  · obtain ⟨st1, cd, hs, hcd, hn, -⟩ := transfer_all_sizing initialProvider
      { chain := "bsc", token := none, amount := none,
        toAddress := "0xTO", data := none }
      { nativeBalance := 1000000000000000000, tokenDecimals := 18,
        tokenBalance := 0, resolveSymbol := fun _ => none }
      rfl (by decide)
    exact hn (by simp [nativeTokenSelected, strFalsy])
  · obtain ⟨st1, cd, hs, hcd, -, he⟩ := transfer_all_sizing initialProvider
      { chain := "bsc", token := some "0xTOK", amount := none,
        toAddress := "0xTO", data := none }
      { nativeBalance := 0, tokenDecimals := 6,
        tokenBalance := 12345, resolveSymbol := fun _ => none }
      rfl (by decide)
    have hst : (Except.ok st1 : Except String WalletProvider) = .ok initialProvider := by
      rw [← hs]
      rfl
    have hst2 : st1 = initialProvider := by
      injection hst
    subst hst2
    have hcd2 : (some cd : Option ChainDesc) = some bscChain := by
      rw [← hcd]
      rfl
    have hcd3 : cd = bscChain := by
      injection hcd2
    subst hcd3
    exact he (by decide) "0xTOK" (by decide)

/-- C9 counterexample: with the bsc descriptor already present, a
switchChain on bsc with a custom RPC URL leaves the chains table
untouched, and the transport of a subsequently requested client points at
the default endpoint, not at the override. -/
theorem switchChain_stale_rpc :
    switchChain initialProvider "bsc" (some "https://custom.example") =
      .ok initialProvider ∧
    createHttpTransport initialProvider "bsc" = .ok "https://rpc.ankr.com/bsc" ∧
    ("https://rpc.ankr.com/bsc" : String) ≠ "https://custom.example" := by
  refine ⟨by decide, by decide, by decide⟩

/-- C9 (amended): registering a chain name that is not yet in the chains
table through switchChain with a nonempty custom RPC URL yields clients
whose transport points at that URL; but when a descriptor for the name is
already present, switchChain ignores the override entirely: it only moves
the current chain pointer and later clients keep using the previously
registered descriptor, so a stale RPC endpoint leaks through this path. -/
theorem switchChain_custom_rpc_roundtrip (st : WalletProvider) (x y : String)
    (hy : ¬ y = "") :
    (mapLookup st.chains x = none → (viemChains x).isSome = true →
      ∃ st2, switchChain st x (some y) = .ok st2 ∧
        createHttpTransport st2 x = .ok y) ∧
    (∀ c, mapLookup st.chains x = some c →
      switchChain st x (some y) = .ok { st with currentChain := x } ∧
      createHttpTransport { st with currentChain := x } x =
        createHttpTransport st x) := by
  constructor
  · intro h1 h2
    obtain ⟨base, hb⟩ := Option.isSome_iff_exists.mp h2
    refine ⟨{ currentChain := x,
              chains := mapInsert st.chains x { base with customRpcUrl := some y } },
            ?_, ?_⟩
    · unfold switchChain genChainFromName
      rw [h1, hb]
      simp [hy]
    · unfold createHttpTransport
      rw [mapLookup_mapInsert]
      simp
  · intro c hc
    constructor
    · unfold switchChain
      rw [hc]
    · unfold createHttpTransport
      rfl

theorem switchChain_custom_rpc_roundtrip_witness :
    ∃ st2, switchChain initialProvider "opBNB" (some "https://custom.example") =
        .ok st2 ∧
      createHttpTransport st2 "opBNB" = .ok "https://custom.example" :=
  (switchChain_custom_rpc_roundtrip initialProvider "opBNB"
    "https://custom.example" (by decide)).1 (by decide) (by decide)
